import Mathlib

/-!
Shallow embedding of the okaoka multi-backend allocator (src/src/lib.rs).

The Rust crate routes allocations to one of several registered backend
allocators, selected by a thread-local tag byte.  On allocation it prepends
a hidden header (sized to the requested alignment) holding the tag; on
deallocation it reads the tag back from the header and dispatches to the
same backend.

Modelling choices:
- Pointers and bytes are Nat; a null pointer is 0.
- Memory is a total function Nat -> Nat (byte-addressable); the only write
  the crate performs is the single tag byte.
- The thread-local ALLOCATOR_TAG together with memory forms AllocState.
- The macro-generated backends are abstracted by their count n and a
  function giving the pointer each backend returns for a layout; the
  generated From u8 conversion (which asserts raw < __END) and the dispatch
  match (whose __END arm is unreachable and panics) are modelled with
  Option, none standing for a panic.
- A closure that may panic is a function into Except AllocState AllocState;
  the error carries the state at the moment of the panic, since Rust
  unwinding leaves the thread-local tag as it was.
-/

/-- Rust std::alloc::Layout: a size and an alignment. -/
structure Layout where
  size : Nat
  align : Nat
  deriving DecidableEq, Repr

/-- Thread-visible state: the thread-local ALLOCATOR_TAG byte and memory. -/
structure AllocState where
  tag : Nat
  mem : Nat → Nat

/-- The initializer of the thread-local ALLOCATOR_TAG (line 10 of lib.rs:
UnsafeCell::new(0)). -/
def ALLOCATOR_TAG_INITIAL : Nat := 0

/-- A freshly created thread whose Selection Context was never written:
the thread-local holds its initializer value. -/
def freshThreadState (m : Nat → Nat) : AllocState :=
  { tag := ALLOCATOR_TAG_INITIAL, mem := m }

/-- get_allocator_tag (lib.rs lines 13-16). -/
def get_allocator_tag (s : AllocState) : Nat := s.tag

/-- set_allocator_tag (lib.rs lines 18-21). -/
def set_allocator_tag (new_tag : Nat) (s : AllocState) : AllocState :=
  { s with tag := new_tag }

/-- The generated From u8 for the backend tag enum (lib.rs lines 92-97):
assert that the raw value is below the __END sentinel (which equals the
number of registered backends) and transmute.  A failed assert panics,
modelled by none. -/
def fromRawTag (n raw : Nat) : Option Nat :=
  if raw < n then some raw else none

/-- The generated Backend::alloc dispatch match (lib.rs lines 110-117):
each real variant calls its allocator's alloc; the __END sentinel arm is
unreachable and panics, modelled by none.  backends gives the pointer the
chosen backend allocator returns for the layout (0 models a null pointer,
i.e. allocation failure reported by the backend). -/
def backendAlloc (n : Nat) (backends : Nat → Layout → Nat) (t : Nat)
    (l : Layout) : Option Nat :=
  if t < n then some (backends t l) else none

/-- What a dispatched deallocation forwards to the chosen backend. -/
structure DeallocCall where
  tag : Nat
  ptr : Nat
  layout : Layout
  deriving DecidableEq, Repr

/-- The generated Backend::dealloc dispatch match (lib.rs lines 119-126):
each real variant calls its allocator's dealloc with the given pointer and
layout (recorded as a DeallocCall); the __END arm is unreachable and
panics, modelled by none. -/
def backendDealloc (n t p : Nat) (l : Layout) : Option DeallocCall :=
  if t < n then some ⟨t, p, l⟩ else none

/-- Everything observable about one run of MultiAllocator::alloc. -/
structure AllocResult where
  backendTag : Nat
  backendLayout : Layout
  backendPtr : Nat
  ret : Nat
  state : AllocState

/-- MultiAllocator::alloc (lib.rs lines 45-57), for a macro-generated
backend with n registered allocators.  Steps, exactly as in the source:
tag_size = layout.align; new_layout = (size + tag_size, align); read the
thread-local tag; convert it via the generated From u8 (panics when out of
range); dispatch to the backend's alloc; unconditionally write the tag
byte through the returned pointer (the source performs no null check); and
return ptr + tag_size. -/
def MultiAllocator.alloc (n : Nat) (backends : Nat → Layout → Nat)
    (s : AllocState) (layout : Layout) : Option AllocResult :=
  let tag_size := layout.align
  let new_layout : Layout := ⟨layout.size + tag_size, layout.align⟩
  let allocator_tag := get_allocator_tag s
  (fromRawTag n allocator_tag).bind fun t =>
    (backendAlloc n backends t new_layout).map fun ptr =>
      { backendTag := t
        backendLayout := new_layout
        backendPtr := ptr
        ret := ptr + tag_size
        state := { s with mem := fun a => if a = ptr then allocator_tag else s.mem a } }

/-- MultiAllocator::dealloc (lib.rs lines 59-72): tag_size = layout.align;
new_ptr = ptr - tag_size; new_layout = (size + tag_size, align); read the
tag byte at new_ptr; convert it via the generated From u8 and dispatch to
the backend's dealloc. -/
def MultiAllocator.dealloc (n : Nat) (s : AllocState) (ptr : Nat)
    (layout : Layout) : Option DeallocCall :=
  let tag_size := layout.align
  let new_ptr := ptr - tag_size
  let new_layout : Layout := ⟨layout.size + tag_size, layout.align⟩
  let tag := s.mem new_ptr
  (fromRawTag n tag).bind fun t => backendDealloc n t new_ptr new_layout

/-- with_allocator (lib.rs lines 164-169): save the current tag, install
the new one, run the closure, and restore the saved tag.  The restore is a
plain statement after the closure call, so it runs only when the closure
returns normally; a panic (Except.error) unwinds past it. -/
def with_allocator (allocator_tag : Nat)
    (closure : AllocState → Except AllocState AllocState)
    (s : AllocState) : Except AllocState AllocState :=
  let old_tag := get_allocator_tag s
  let s1 := set_allocator_tag allocator_tag s
  match closure s1 with
  | Except.ok s2 => Except.ok (set_allocator_tag old_tag s2)
  | Except.error e => Except.error e

/-- The Selection Context value when a with_allocator call finishes,
whether the unit of work returned normally or panicked. -/
def exitTag : Except AllocState AllocState → Nat
  | Except.ok s => s.tag
  | Except.error s => s.tag

/-- C1: an allocation made while the Selection Context holds tag A is, when
later freed with the same layout, routed to backend A's deallocate on the
original backend pointer and combined layout, even after the Selection
Context has been changed to any other tag B, because dealloc dispatches on
the tag byte stored in the block's header. -/
theorem alloc_then_dealloc_uses_stored_tag
    (n : Nat) (backends : Nat → Layout → Nat) (s : AllocState)
    (layout : Layout) (B : Nat) (h : s.tag < n) :
    ∃ r : AllocResult,
      MultiAllocator.alloc n backends s layout = some r ∧
      r.backendTag = s.tag ∧
      MultiAllocator.dealloc n (set_allocator_tag B r.state) r.ret layout =
        some ⟨s.tag, r.backendPtr, r.backendLayout⟩ := by
  refine ⟨{ backendTag := s.tag
            backendLayout := ⟨layout.size + layout.align, layout.align⟩
            backendPtr := backends s.tag ⟨layout.size + layout.align, layout.align⟩
            ret := backends s.tag ⟨layout.size + layout.align, layout.align⟩ + layout.align
            state := { s with mem := fun a => (if a = backends s.tag ⟨layout.size + layout.align, layout.align⟩ then s.tag else s.mem a) } }, ?_, rfl, ?_⟩
  · simp [MultiAllocator.alloc, fromRawTag, backendAlloc, get_allocator_tag, h]
  · simp [MultiAllocator.dealloc, fromRawTag, backendDealloc, set_allocator_tag,
      Nat.add_sub_cancel, h]

/-- C1 witness: two backends, tag 1 selected at allocation time, Selection
Context switched to 0 before the free; dealloc still dispatches to
backend 1 with the original backend pointer and combined layout. -/
theorem alloc_then_dealloc_uses_stored_tag_witness :
    ∃ r : AllocResult,
      MultiAllocator.alloc 2 (fun _ _ => 100) ⟨1, fun _ => 0⟩ ⟨10, 8⟩ = some r ∧
      r.backendTag = 1 ∧
      MultiAllocator.dealloc 2 (set_allocator_tag 0 r.state) r.ret ⟨10, 8⟩ =
        some ⟨1, r.backendPtr, r.backendLayout⟩ :=
  alloc_then_dealloc_uses_stored_tag 2 (fun _ _ => 100) ⟨1, fun _ => 0⟩ ⟨10, 8⟩ 0
    (by decide)

/-- C5: MultiAllocator::dealloc reconstructs the original allocation
exactly: region = pointer - alignment, combined layout =
(size + alignment, alignment), tag read from the first byte of the region,
and exactly (region, combined layout) forwarded to that tag's backend. -/
theorem dealloc_reconstruction
    (n : Nat) (s : AllocState) (ptr : Nat) (layout : Layout)
    (h : s.mem (ptr - layout.align) < n) :
    MultiAllocator.dealloc n s ptr layout =
      some ⟨s.mem (ptr - layout.align), ptr - layout.align,
            ⟨layout.size + layout.align, layout.align⟩⟩ := by
  simp [MultiAllocator.dealloc, fromRawTag, backendDealloc, h]

/-- C5 witness: a single backend, pointer 8, layout (4, 8); dealloc
forwards (0, (12, 8)) to backend 0. -/
theorem dealloc_reconstruction_witness :
    MultiAllocator.dealloc 1 ⟨0, fun _ => 0⟩ 8 ⟨4, 8⟩ =
      some ⟨0, 0, ⟨12, 8⟩⟩ :=
  dealloc_reconstruction 1 ⟨0, fun _ => 0⟩ 8 ⟨4, 8⟩ (by decide)

/-- C6: the pointer alloc returns is the backend pointer plus exactly the
requested alignment; hence whenever the backend pointer is a multiple of
the requested alignment, so is the returned pointer. -/
theorem alloc_pointer_alignment
    (n : Nat) (backends : Nat → Layout → Nat) (s : AllocState)
    (layout : Layout) (h : s.tag < n) :
    ∃ r : AllocResult,
      MultiAllocator.alloc n backends s layout = some r ∧
      r.ret = r.backendPtr + layout.align ∧
      (r.backendPtr % layout.align = 0 → r.ret % layout.align = 0) := by
  obtain ⟨r, hr, -, -⟩ :=
    alloc_then_dealloc_uses_stored_tag n backends s layout 0 h
  refine ⟨r, hr, ?_, ?_⟩
  · simp [MultiAllocator.alloc, fromRawTag, backendAlloc, get_allocator_tag, h]
      at hr
    subst hr
    rfl
  · intro hp
    have hret : r.ret = r.backendPtr + layout.align := by
      simp [MultiAllocator.alloc, fromRawTag, backendAlloc, get_allocator_tag, h]
        at hr
      subst hr
      rfl
    rw [hret, Nat.add_mod_right]
    exact hp

/-- C6 witness: alignment 16, backend pointer 32; the returned pointer is
48 = 32 + 16, a multiple of 16. -/
theorem alloc_pointer_alignment_witness :
    ∃ r : AllocResult,
      MultiAllocator.alloc 1 (fun _ _ => 32) ⟨0, fun _ => 0⟩ ⟨4, 16⟩ = some r ∧
      r.ret = r.backendPtr + 16 ∧
      (r.backendPtr % 16 = 0 → r.ret % 16 = 0) :=
  alloc_pointer_alignment 1 (fun _ _ => 32) ⟨0, fun _ => 0⟩ ⟨4, 16⟩ (by decide)

/-- C2: evaluation of MultiAllocator::alloc at a failing backend.  When the
backend's allocate fails and returns the null pointer (0), the source
performs no null check: it writes the tag byte through the null pointer
(clobbering address 0, which held 37 beforehand) and returns
0 + alignment = 8, a non-null pointer, instead of propagating the null
failure unchanged.  This contradicts both the spec and the GlobalAlloc
contract, so it is a bug in the code. -/
theorem alloc_writes_through_null_on_backend_failure :
    ∃ r : AllocResult,
      MultiAllocator.alloc 1 (fun _ _ => 0) ⟨0, fun _ => 37⟩ ⟨10, 8⟩ = some r ∧
      r.backendPtr = 0 ∧
      r.ret = 8 ∧
      r.ret ≠ 0 ∧
      r.state.mem 0 = 0 ∧
      (⟨0, fun _ => 37⟩ : AllocState).mem 0 = 37 := by
  refine ⟨_, rfl, rfl, rfl, by decide, by decide, rfl⟩

/-- C3 counterexample: with starting tag S = 0 and override tag O = 1, a
unit of work that panics immediately leaves the Selection Context at 1,
not S = 0: the restore in with_allocator is a plain statement after the
closure call and is skipped on unwind. -/
theorem with_allocator_panic_leaves_override_tag :
    exitTag (with_allocator 1 (fun s => Except.error s) ⟨0, fun _ => 0⟩) = 1 ∧
    (1 : Nat) ≠ 0 := by
  exact ⟨rfl, by decide⟩

/-- C3 amended: when the unit of work returns normally, with_allocator
restores the saved Selection Context value S; when the unit of work
panics, the panic propagates with the Selection Context left exactly as
the unit of work left it (the saved value is not restored). -/
theorem with_allocator_restores_on_normal_return
    (s : AllocState) (t : Nat) (f g : AllocState → AllocState) :
    (∃ s2, with_allocator t (fun st => Except.ok (f st)) s = Except.ok s2 ∧
      s2.tag = s.tag) ∧
    with_allocator t (fun st => Except.error (g st)) s =
      Except.error (g (set_allocator_tag t s)) := by
  exact ⟨⟨_, rfl, rfl⟩, rfl⟩

/-- C4: nesting of scoped selections.  In
with_allocator A (with_allocator B inner), the inner unit of work runs
with Selection Context B, the context is A again right after the inner
call returns, and it equals the pre-existing value after the outer call
returns, with no explicit stack. -/
theorem with_allocator_nesting
    (s : AllocState) (A B : Nat) (f : AllocState → AllocState) :
    (set_allocator_tag B (set_allocator_tag A s)).tag = B ∧
    (∃ s1, with_allocator B (fun st => Except.ok (f st)) (set_allocator_tag A s) =
      Except.ok s1 ∧ s1.tag = A) ∧
    (∃ s2, with_allocator A
        (fun st => with_allocator B (fun st2 => Except.ok (f st2)) st) s =
      Except.ok s2 ∧ s2.tag = s.tag) := by
  exact ⟨rfl, ⟨_, rfl, rfl⟩, ⟨_, rfl, rfl⟩⟩

/-- C7: the generated From u8 conversion panics for every raw value at or
above the registered backend count n, succeeds producing the variant with
that exact discriminant (no clamping, no wrapping) for every raw value
strictly below n, and every tag it produces misses the reserved __END
sentinel arm of the dispatch matches, so the unreachable branch is never
executed for a tag obtained through this conversion. -/
theorem fromRawTag_range_validation (n raw : Nat) :
    (raw < n → fromRawTag n raw = some raw) ∧
    (n ≤ raw → fromRawTag n raw = none) ∧
    (∀ t, fromRawTag n raw = some t →
      ∀ backends l p,
        backendAlloc n backends t l = some (backends t l) ∧
        backendDealloc n t p l = some ⟨t, p, l⟩) := by
  refine ⟨fun h => ?_, fun h => ?_, fun t ht backends l p => ?_⟩
  · simp [fromRawTag, h]
  · simp [fromRawTag, Nat.not_lt.mpr h]
  · have htn : t < n := by
      by_contra hc
      simp [fromRawTag] at ht
      omega
    exact ⟨by simp [backendAlloc, htn], by simp [backendDealloc, htn]⟩

/-- C7 witness: with 2 registered backends, raw value 1 converts to
variant 1 and dispatches past the sentinel, while raw value 5 panics. -/
theorem fromRawTag_range_validation_witness :
    fromRawTag 2 1 = some 1 ∧
    fromRawTag 2 5 = none ∧
    backendAlloc 2 (fun _ _ => 7) 1 ⟨4, 4⟩ = some 7 := by
  refine ⟨(fromRawTag_range_validation 2 1).1 (by decide),
    (fromRawTag_range_validation 2 5).2.1 (by decide), ?_⟩
  exact ((fromRawTag_range_validation 2 1).2.2 1
    ((fromRawTag_range_validation 2 1).1 (by decide)) (fun _ _ => 7) ⟨4, 4⟩ 0).1

/-- C8: on allocation the tag is written at the start of the region
returned by the backend, an address inside the first headerSize bytes of
that region (headerSize = requested alignment, which is at least 1), no
other byte of memory changes, and the returned pointer is
region + headerSize. -/
theorem alloc_writes_tag_into_header
    (n : Nat) (backends : Nat → Layout → Nat) (s : AllocState)
    (layout : Layout) (h : s.tag < n) (ha : 1 ≤ layout.align) :
    ∃ r : AllocResult,
      MultiAllocator.alloc n backends s layout = some r ∧
      r.state.mem r.backendPtr = s.tag ∧
      r.backendPtr < r.backendPtr + layout.align ∧
      r.ret = r.backendPtr + layout.align ∧
      (∀ a, a ≠ r.backendPtr → r.state.mem a = s.mem a) := by
  refine ⟨{ backendTag := s.tag
            backendLayout := ⟨layout.size + layout.align, layout.align⟩
            backendPtr := backends s.tag ⟨layout.size + layout.align, layout.align⟩
            ret := backends s.tag ⟨layout.size + layout.align, layout.align⟩ + layout.align
            state := { s with mem := fun a => (if a = backends s.tag ⟨layout.size + layout.align, layout.align⟩ then s.tag else s.mem a) } },
    ?_, by simp, by omega, rfl, fun a hne => by simp [hne]⟩
  simp [MultiAllocator.alloc, fromRawTag, backendAlloc, get_allocator_tag, h]

/-- C8 witness: one backend, tag 0, layout (4, 8), backend pointer 16; the
tag is written at address 16, inside the 8-byte header, and the caller
receives 24. -/
theorem alloc_writes_tag_into_header_witness :
    ∃ r : AllocResult,
      MultiAllocator.alloc 1 (fun _ _ => 16) ⟨0, fun _ => 9⟩ ⟨4, 8⟩ = some r ∧
      r.state.mem r.backendPtr = 0 ∧
      r.backendPtr < r.backendPtr + 8 ∧
      r.ret = r.backendPtr + 8 ∧
      (∀ a, a ≠ r.backendPtr → r.state.mem a = (fun _ => 9) a) :=
  alloc_writes_tag_into_header 1 (fun _ _ => 16) ⟨0, fun _ => 9⟩ ⟨4, 8⟩
    (by decide) (by decide)

/-- C9: on a thread where the Selection Context was never written it holds
the thread-local initializer 0, so an allocation there is dispatched to
backend 0, the first-registered backend. -/
theorem fresh_thread_uses_backend_zero
    (m : Nat → Nat) (n : Nat) (backends : Nat → Layout → Nat)
    (layout : Layout) (h : 1 ≤ n) :
    get_allocator_tag (freshThreadState m) = 0 ∧
    ∃ r : AllocResult,
      MultiAllocator.alloc n backends (freshThreadState m) layout = some r ∧
      r.backendTag = 0 := by
  refine ⟨rfl, ?_⟩
  obtain ⟨r, hr, htag, -⟩ :=
    alloc_then_dealloc_uses_stored_tag n backends (freshThreadState m) layout 0 h
  exact ⟨r, hr, htag⟩

/-- C9 witness: one registered backend; a fresh thread's tag reads 0 and
its allocation dispatches to backend 0. -/
theorem fresh_thread_uses_backend_zero_witness :
    get_allocator_tag (freshThreadState (fun _ => 0)) = 0 ∧
    ∃ r : AllocResult,
      MultiAllocator.alloc 1 (fun _ _ => 64) (freshThreadState (fun _ => 0))
        ⟨8, 8⟩ = some r ∧
      r.backendTag = 0 :=
  fresh_thread_uses_backend_zero (fun _ => 0) 1 (fun _ _ => 64) ⟨8, 8⟩
    (by decide)

/-- C10: with_allocator installs any raw u8 tag without range validation:
for every value t the install succeeds (the closure observes exactly t and
a normally returning closure makes the call return normally), while an
out-of-range t makes a later allocation panic at the generated From u8
conversion, so MultiAllocator::alloc returns no result. -/
theorem with_allocator_defers_validation
    (t : Nat) (s : AllocState) (f : AllocState → AllocState)
    (n : Nat) (backends : Nat → Layout → Nat) (layout : Layout)
    (hout : n ≤ t) :
    (set_allocator_tag t s).tag = t ∧
    (∃ s2, with_allocator t (fun st => Except.ok (f st)) s = Except.ok s2) ∧
    fromRawTag n t = none ∧
    MultiAllocator.alloc n backends (set_allocator_tag t s) layout = none := by
  refine ⟨rfl, ⟨_, rfl⟩, ?_, ?_⟩
  · simp [fromRawTag, Nat.not_lt.mpr hout]
  · simp [MultiAllocator.alloc, fromRawTag, get_allocator_tag,
      set_allocator_tag, Nat.not_lt.mpr hout]

/-- C10 witness: tag 5 with only 2 registered backends: the install
succeeds and the closure sees tag 5, but the subsequent allocation panics
(no result) at the From u8 conversion. -/
theorem with_allocator_defers_validation_witness :
    (set_allocator_tag 5 ⟨0, fun _ => 0⟩).tag = 5 ∧
    (∃ s2, with_allocator 5 (fun st => Except.ok st) ⟨0, fun _ => 0⟩ =
      Except.ok s2) ∧
    fromRawTag 2 5 = none ∧
    MultiAllocator.alloc 2 (fun _ _ => 32) (set_allocator_tag 5 ⟨0, fun _ => 0⟩)
      ⟨4, 4⟩ = none :=
  with_allocator_defers_validation 5 ⟨0, fun _ => 0⟩ (fun st => st) 2
    (fun _ _ => 32) ⟨4, 4⟩ (by decide)
